import Mathlib

/-!
# A verification of the triple-check validation engine

A shallow embedding of `lead_sniper/validators/triple_check_validator.py`
(class `TripleCheckValidator`) and proofs about it.

Modelling conventions:
* Python `float` scores are modelled as exact rationals (`ℚ`); the decimal
  literals `0.33`, `0.34` become `33/100`, `34/100`.  Every score reachable
  in this program stays far enough from the decision thresholds that IEEE
  double rounding never flips a comparison, so the rational model observes
  the same control flow as the Python code.
* A data point (a Python dict) is an association list from keys to values;
  a value is either a string or a non-string Python object (such as an
  integer), on which the string operations `.strip()` and `in` raise.
* Code that can raise is modelled in `Except Unit`; a raised exception is
  `.error ()` and propagates like a Python exception.
* `datetime.now().isoformat()` is modelled by an arbitrary string `now`
  supplied per validation call; no claim depends on its value.
* The mutable attributes `validation_history`, `rejected_data` and
  `audit_log` of the validator object are threaded explicitly as a
  `ValidatorState`.
-/

namespace TripleCheck

/-- A Python value stored in a data-point dict: a string, or a non-string
value (such as an integer) whose use as a string raises `TypeError` /
`AttributeError`. -/
inductive Value where
  | str (s : String)
  | nonstr
deriving DecidableEq, Repr

/-- A data point: a Python dict modelled as an association list
(keys unique in practice; lookups below take the first binding). -/
abbrev DataPoint := List (String × Value)

/-- Dict lookup `data_point[k]`, presence-respecting (first binding wins). -/
def dictGet (d : DataPoint) (k : String) : Option Value :=
  match d with
  | [] => none
  | (k', v) :: t => if k' == k then some v else dictGet t k

/-- Python `k in data_point`. -/
def hasKey (d : DataPoint) (k : String) : Bool :=
  (dictGet d k).isSome

/-- Python `data_point.get(k, "")` followed by use of the result as a string:
a present non-string value makes the Python string operation raise. -/
def getStrD (d : DataPoint) (k : String) : Except Unit String :=
  match dictGet d k with
  | none => .ok ""
  | some (.str s) => .ok s
  | some .nonstr => .error ()

/-- The whitespace characters Python's `str.strip()` removes
(ASCII range: space, tab, newline, carriage return, vertical tab,
form feed). -/
def isPySpace (c : Char) : Bool :=
  c == ' ' || c == '\t' || c == '\n' || c == '\r' ||
  c == Char.ofNat 11 || c == Char.ofNat 12

/-- Python `s.strip() == ""`: every character of `s` is whitespace. -/
def stripBlank (s : String) : Bool :=
  s.toList.all isPySpace

/-- True iff `needle` occurs at the front of `hay`. -/
def charsAtFront : List Char → List Char → Bool
  | [], _ => true
  | _ :: _, [] => false
  | a :: as, b :: bs => a == b && charsAtFront as bs

/-- True iff `needle` occurs somewhere in `hay`. -/
def charsContain (needle : List Char) : List Char → Bool
  | [] => charsAtFront needle []
  | b :: bs => charsAtFront needle (b :: bs) || charsContain needle bs

/-- Python `needle in hay` for strings. -/
def strIn (needle hay : String) : Bool :=
  charsContain needle.toList hay.toList

/-- The enum `ValidationStatus`: the four terminal classifications. -/
inductive ValidationStatus where
  | GOLD
  | SILVER
  | BRONZE
  | REJECTED
deriving DecidableEq, Repr

/-- Result dict of `_check_source_authenticity`. -/
structure SourceCheck where
  source : String
  is_authentic : Bool
  score : ℚ
deriving DecidableEq, Repr

/-- Result dict of `_check_data_integrity`. -/
structure IntegrityCheck where
  has_address : Bool
  has_city : Bool
  has_state : Bool
  has_zip : Bool
  has_source : Bool
  has_timestamp : Bool
  score : ℚ
deriving DecidableEq, Repr

/-- Result dict of `_check_data_quality`. -/
structure QualityCheck where
  score : ℚ
deriving DecidableEq, Repr

/-- Result dict of `_layer_1_internal_verification`. -/
structure Layer1Result where
  source_authenticity : SourceCheck
  data_integrity : IntegrityCheck
  data_quality : QualityCheck
  score : ℚ
deriving DecidableEq, Repr

/-- One external source's verdict (result dict of a `_verify_*` method). -/
structure ExternalSourceResult where
  source : String
  valid : Bool
  confidence : ℚ
  url : String
  timestamp : String
deriving DecidableEq, Repr

/-- Result dict of `_layer_2_external_verification`. -/
structure Layer2Result where
  external_sources : List ExternalSourceResult
  agreement_percentage : ℚ
  score : ℚ
deriving DecidableEq, Repr

/-- Result dict of `_layer_3_reproducibility_test`; the seven named boolean
checks are kept in their source order. -/
structure Layer3Result where
  reproducibility_checks : List Bool
  score : ℚ
deriving DecidableEq, Repr

/-- One line of the audit log: the `dict` appended to `self.audit_log`. -/
structure AuditEntry where
  timestamp : String
  layer : Nat
  data_point : Value
  score : ℚ
deriving DecidableEq, Repr

/-- The report dict built by `validate_data_point`.  The Python code
initialises `layer_1`/`layer_2`/`layer_3` to `{}` and `final_status` to
`None`; the empty dict / `None` are modelled as `none`. -/
structure ValidationReport where
  data_point : DataPoint
  validation_timestamp : String
  layer_1 : Option Layer1Result
  layer_2 : Option Layer2Result
  layer_3 : Option Layer3Result
  final_score : ℚ
  final_status : Option ValidationStatus
  audit_trail : List AuditEntry
deriving DecidableEq, Repr

/-- The mutable attributes of a `TripleCheckValidator` object. -/
structure ValidatorState where
  validation_history : List ValidationReport
  rejected_data : List ValidationReport
  audit_log : List AuditEntry
deriving DecidableEq, Repr

/-- Constructor `TripleCheckValidator.__init__`: all three lists start empty. -/
def initState : ValidatorState :=
  { validation_history := [], rejected_data := [], audit_log := [] }

/-- The allow-list in `_check_source_authenticity`. -/
def authoritative_sources : List String :=
  ["HUD", "County Clerk", "County Assessor", "County Tax",
   "USPS", "Google Maps", "Census Bureau", "Zillow", "Redfin"]

/-- Method `_check_source_authenticity`: score 99 iff some allow-list entry is a
substring of `data_point.get("source", "")`; raises if the `source` value
is a non-string. -/
def _check_source_authenticity (d : DataPoint) : Except Unit SourceCheck :=
  match getStrD d "source" with
  | .error e => .error e
  | .ok source =>
    let is_a := authoritative_sources.any (fun a => strIn a source)
    .ok { source := source, is_authentic := is_a,
          score := if is_a then 99 else 0 }

/-- The six required keys of `_check_data_integrity`, in source order. -/
def requiredKeys : List String :=
  ["address", "city", "state", "zip", "source", "timestamp"]

/-- Method `_check_data_integrity`: fraction of the six required keys present,
as a percentage. -/
def _check_data_integrity (d : DataPoint) : IntegrityCheck :=
  let passed : Nat := (requiredKeys.filter (fun k => hasKey d k)).length
  { has_address := hasKey d "address", has_city := hasKey d "city",
    has_state := hasKey d "state", has_zip := hasKey d "zip",
    has_source := hasKey d "source", has_timestamp := hasKey d "timestamp",
    score := ((passed : ℚ) / 6) * 100 }

/-- Method `_check_data_quality`: start at 90, subtract 50 for each of
address/city/state whose `.get(k, "").strip()` is empty (so a *missing*
key counts like a blank one), floor at 0.  Raises if one of the three
values is a non-string. -/
def _check_data_quality (d : DataPoint) : Except Unit QualityCheck :=
  match getStrD d "address" with
  | .error e => .error e
  | .ok address =>
    match getStrD d "city" with
    | .error e => .error e
    | .ok city =>
      match getStrD d "state" with
      | .error e => .error e
      | .ok state =>
        let q : Int :=
          90 - (if stripBlank address then 50 else 0)
             - (if stripBlank city then 50 else 0)
             - (if stripBlank state then 50 else 0)
        .ok { score := ((max 0 q : Int) : ℚ) }

/-- Method `_layer_1_internal_verification`: the three sub-checks, averaged. -/
def _layer_1_internal_verification (d : DataPoint) : Except Unit Layer1Result :=
  match _check_source_authenticity d with
  | .error e => .error e
  | .ok source_check =>
    let integrity_check := _check_data_integrity d
    match _check_data_quality d with
    | .error e => .error e
    | .ok quality_check =>
      .ok { source_authenticity := source_check,
            data_integrity := integrity_check,
            data_quality := quality_check,
            score := (source_check.score + integrity_check.score +
                      quality_check.score) / 3 }

/-- The score banding repeated verbatim inside
`_layer_2_external_verification` (on the agreement percentage) and
`_layer_3_reproducibility_test` (on the reproducibility percentage):
`>= 95 → 99`, `>= 80 → 90`, `>= 60 → 75`, else `50`. -/
def scoreBands (pct : ℚ) : ℚ :=
  if 95 ≤ pct then 99
  else if 80 ≤ pct then 90
  else if 60 ≤ pct then 75
  else 50

/-- Method `_verify_usps`: hardcoded success. -/
def _verify_usps (_ : DataPoint) (now : String) : ExternalSourceResult :=
  { source := "USPS", valid := true, confidence := 99,
    url := "https://tools.usps.com", timestamp := now }

/-- Method `_verify_google_maps`: hardcoded success. -/
def _verify_google_maps (_ : DataPoint) (now : String) : ExternalSourceResult :=
  { source := "Google Maps", valid := true, confidence := 98,
    url := "https://maps.google.com", timestamp := now }

/-- Method `_verify_county_records`: hardcoded success. -/
def _verify_county_records (_ : DataPoint) (now : String) : ExternalSourceResult :=
  { source := "County Records", valid := true, confidence := 99,
    url := "https://county-records.example.com", timestamp := now }

/-- Method `_verify_county_assessor`: hardcoded success. -/
def _verify_county_assessor (_ : DataPoint) (now : String) : ExternalSourceResult :=
  { source := "County Assessor", valid := true, confidence := 99,
    url := "https://assessor.example.com", timestamp := now }

/-- Method `_verify_property_appraiser`: hardcoded success. -/
def _verify_property_appraiser (_ : DataPoint) (now : String) : ExternalSourceResult :=
  { source := "Property Appraiser", valid := true, confidence := 98,
    url := "https://appraiser.example.com", timestamp := now }

/-- The body of `_layer_2_external_verification` from the point where the
source list is in hand: filter the valid ones; with no valid source the
score is 0 and the agreement percentage keeps its initial value 0;
otherwise agreement = valid/total × 100, banded. -/
def layer2FromSources (sources : List ExternalSourceResult) : Layer2Result :=
  let valid_sources := sources.filter (fun s => s.valid)
  if valid_sources.isEmpty then
    { external_sources := sources, agreement_percentage := 0, score := 0 }
  else
    let agreement : ℚ :=
      ((valid_sources.length : ℚ) / (sources.length : ℚ)) * 100
    { external_sources := sources, agreement_percentage := agreement,
      score := scoreBands agreement }

/-- Method `_layer_2_external_verification`: consult the fixed panel of five
sources, then aggregate. -/
def _layer_2_external_verification (d : DataPoint) (now : String) : Layer2Result :=
  layer2FromSources
    [_verify_usps d now, _verify_google_maps d now,
     _verify_county_records d now, _verify_county_assessor d now,
     _verify_property_appraiser d now]

/-- Method `_can_find_in_usps`: hardcoded `True`. -/
def _can_find_in_usps (_ : DataPoint) : Bool := true

/-- Method `_can_find_in_google_maps`: hardcoded `True`. -/
def _can_find_in_google_maps (_ : DataPoint) : Bool := true

/-- Method `_can_find_in_county_assessor`: hardcoded `True`. -/
def _can_find_in_county_assessor (_ : DataPoint) : Bool := true

/-- Method `_can_find_in_county_clerk`: hardcoded `True`. -/
def _can_find_in_county_clerk (_ : DataPoint) : Bool := true

/-- Method `_can_find_in_property_appraiser`: hardcoded `True`. -/
def _can_find_in_property_appraiser (_ : DataPoint) : Bool := true

/-- Method `_can_find_in_zillow`: hardcoded `True`. -/
def _can_find_in_zillow (_ : DataPoint) : Bool := true

/-- Method `_can_find_in_redfin`: hardcoded `True`. -/
def _can_find_in_redfin (_ : DataPoint) : Bool := true

/-- Method `_layer_3_reproducibility_test`: the seven findability booleans,
fraction findable as a percentage, banded (no zero guard: the panel has
seven members). -/
def _layer_3_reproducibility_test (d : DataPoint) : Layer3Result :=
  let checks :=
    [_can_find_in_usps d, _can_find_in_google_maps d,
     _can_find_in_county_assessor d, _can_find_in_county_clerk d,
     _can_find_in_property_appraiser d, _can_find_in_zillow d,
     _can_find_in_redfin d]
  let findable_count : Nat := (checks.filter (fun v => v)).length
  let total_count : Nat := checks.length
  let pct : ℚ := ((findable_count : ℚ) / (total_count : ℚ)) * 100
  { reproducibility_checks := checks, score := scoreBands pct }

/-- The weighted composite of line 102–106:
`layer1*0.33 + layer2*0.33 + layer3*0.34`. -/
def compositeScore (l1 l2 l3 : ℚ) : ℚ :=
  l1 * (33 / 100) + l2 * (33 / 100) + l3 * (34 / 100)

/-- The status chain of lines 111–118: `>= 95 → GOLD`, `>= 85 → SILVER`,
`>= 75 → BRONZE`, else `REJECTED`. -/
def classify (final_score : ℚ) : ValidationStatus :=
  if 95 ≤ final_score then .GOLD
  else if 85 ≤ final_score then .SILVER
  else if 75 ≤ final_score then .BRONZE
  else .REJECTED

/-- The expression `data_point.get("address", "unknown")`: the record identifier written
into audit entries. -/
def auditId (d : DataPoint) : Value :=
  (dictGet d "address").getD (.str "unknown")

/-- Method `validate_data_point`: the three layers in sequence with the `< 75`
early exit after each, then the weighted composite and the banded status.
State effects are threaded; every `return` path of the Python method
becomes an `.ok`, a propagated exception an `.error`. -/
def validate_data_point (st : ValidatorState) (now : String) (d : DataPoint) :
    Except Unit (ValidationReport × ValidatorState) :=
  match _layer_1_internal_verification d with
  | .error e => .error e
  | .ok layer_1_result =>
    let st := { st with audit_log := st.audit_log ++
      [({ timestamp := now, layer := 1, data_point := auditId d,
          score := layer_1_result.score } : AuditEntry)] }
    let report : ValidationReport :=
      { data_point := d, validation_timestamp := now,
        layer_1 := some layer_1_result, layer_2 := none, layer_3 := none,
        final_score := 0, final_status := none, audit_trail := [] }
    if layer_1_result.score < 75 then
      let report := { report with final_status := some .REJECTED,
                                  final_score := layer_1_result.score }
      .ok (report, { st with rejected_data := st.rejected_data ++ [report] })
    else
      let layer_2_result := _layer_2_external_verification d now
      let st := { st with audit_log := st.audit_log ++
        [({ timestamp := now, layer := 2, data_point := auditId d,
            score := layer_2_result.score } : AuditEntry)] }
      let report := { report with layer_2 := some layer_2_result }
      if layer_2_result.score < 75 then
        let report := { report with final_status := some .REJECTED,
                                    final_score := layer_2_result.score }
        .ok (report, { st with rejected_data := st.rejected_data ++ [report] })
      else
        let layer_3_result := _layer_3_reproducibility_test d
        let st := { st with audit_log := st.audit_log ++
          [({ timestamp := now, layer := 3, data_point := auditId d,
              score := layer_3_result.score } : AuditEntry)] }
        let report := { report with layer_3 := some layer_3_result }
        if layer_3_result.score < 75 then
          let report := { report with final_status := some .REJECTED,
                                      final_score := layer_3_result.score }
          .ok (report, { st with rejected_data := st.rejected_data ++ [report] })
        else
          let final_score := compositeScore layer_1_result.score
              layer_2_result.score layer_3_result.score
          let status := classify final_score
          let report := { report with final_score := final_score,
                                      final_status := some status }
          let st := if status = .REJECTED then
              { st with rejected_data := st.rejected_data ++ [report] }
            else st
          .ok (report, { st with validation_history :=
              st.validation_history ++ [report] })

/-- The `GOLD`/`SILVER` membership test of `get_releasable_data`. -/
def isGoldOrSilver (s : Option ValidationStatus) : Bool :=
  match s with
  | some .GOLD => true
  | some .SILVER => true
  | _ => false

/-- Method `get_releasable_data`: the GOLD and SILVER entries of
`validation_history`. -/
def get_releasable_data (st : ValidatorState) : List ValidationReport :=
  st.validation_history.filter (fun r => isGoldOrSilver r.final_status)

/-- Method `get_rejected_data`. -/
def get_rejected_data (st : ValidatorState) : List ValidationReport :=
  st.rejected_data

/-- A sequence of `validate_data_point` calls on one validator object (as
`generate_validation_report` performs); a call that raises leaves the
state unchanged. -/
def runBatch (st : ValidatorState) : List (String × DataPoint) → ValidatorState
  | [] => st
  | (now, d) :: rest =>
    match validate_data_point st now d with
    | .ok (_, st') => runBatch st' rest
    | .error _ => runBatch st rest

/-! ## Basic facts about the layers -/

/-- The five hardcoded sources, as `_layer_2_external_verification` lists
them. -/
def panelSources (d : DataPoint) (now : String) : List ExternalSourceResult :=
  [_verify_usps d now, _verify_google_maps d now,
   _verify_county_records d now, _verify_county_assessor d now,
   _verify_property_appraiser d now]

lemma layer2_eval (d : DataPoint) (now : String) :
    _layer_2_external_verification d now =
      { external_sources := panelSources d now,
        agreement_percentage := 100, score := 99 } := by
  have h : ((5 : ℚ) / 5) * 100 = 100 := by norm_num
  simp only [_layer_2_external_verification, layer2FromSources, panelSources,
    _verify_usps, _verify_google_maps, _verify_county_records,
    _verify_county_assessor, _verify_property_appraiser,
    List.filter, List.isEmpty, List.length]
  norm_num [scoreBands]

lemma layer2_score (d : DataPoint) (now : String) :
    (_layer_2_external_verification d now).score = 99 := by
  rw [layer2_eval]

lemma layer3_eval (d : DataPoint) :
    _layer_3_reproducibility_test d =
      { reproducibility_checks := [true, true, true, true, true, true, true],
        score := 99 } := by
  simp only [_layer_3_reproducibility_test, _can_find_in_usps,
    _can_find_in_google_maps, _can_find_in_county_assessor,
    _can_find_in_county_clerk, _can_find_in_property_appraiser,
    _can_find_in_zillow, _can_find_in_redfin, List.filter, List.length]
  norm_num [scoreBands]

lemma layer3_score (d : DataPoint) :
    (_layer_3_reproducibility_test d).score = 99 := by
  rw [layer3_eval]

lemma classify_spec (f : ℚ) :
    (95 ≤ f ∧ classify f = .GOLD) ∨
    (85 ≤ f ∧ f < 95 ∧ classify f = .SILVER) ∨
    (75 ≤ f ∧ f < 85 ∧ classify f = .BRONZE) ∨
    (f < 75 ∧ classify f = .REJECTED) := by
  unfold classify
  split_ifs with h1 h2 h3
  · exact Or.inl ⟨h1, rfl⟩
  · exact Or.inr (Or.inl ⟨h2, by linarith, rfl⟩)
  · exact Or.inr (Or.inr (Or.inl ⟨h3, by linarith, rfl⟩))
  · exact Or.inr (Or.inr (Or.inr ⟨by linarith, rfl⟩))

lemma classify_GOLD_iff (f : ℚ) : classify f = .GOLD ↔ 95 ≤ f := by
  rcases classify_spec f with ⟨h, e⟩ | ⟨h, h', e⟩ | ⟨h, h', e⟩ | ⟨h, e⟩ <;>
    rw [e] <;> constructor <;> intro hx
  · exact h
  · rfl
  · exact absurd hx (by simp)
  · exact absurd hx (by linarith)
  · exact absurd hx (by simp)
  · exact absurd hx (by linarith)
  · exact absurd hx (by simp)
  · exact absurd hx (by linarith)

lemma classify_SILVER_iff (f : ℚ) :
    classify f = .SILVER ↔ 85 ≤ f ∧ f < 95 := by
  rcases classify_spec f with ⟨h, e⟩ | ⟨h, h', e⟩ | ⟨h, h', e⟩ | ⟨h, e⟩ <;>
    rw [e] <;> constructor <;> intro hx
  · exact absurd hx (by simp)
  · exact absurd hx.2 (by linarith)
  · exact ⟨h, h'⟩
  · rfl
  · exact absurd hx (by simp)
  · exact absurd hx.1 (by linarith)
  · exact absurd hx (by simp)
  · exact absurd hx.1 (by linarith)

lemma classify_BRONZE_iff (f : ℚ) :
    classify f = .BRONZE ↔ 75 ≤ f ∧ f < 85 := by
  rcases classify_spec f with ⟨h, e⟩ | ⟨h, h', e⟩ | ⟨h, h', e⟩ | ⟨h, e⟩ <;>
    rw [e] <;> constructor <;> intro hx
  · exact absurd hx (by simp)
  · exact absurd hx.2 (by linarith)
  · exact absurd hx (by simp)
  · exact absurd hx.2 (by linarith)
  · exact ⟨h, h'⟩
  · rfl
  · exact absurd hx (by simp)
  · exact absurd hx.1 (by linarith)

lemma classify_REJECTED_iff (f : ℚ) :
    classify f = .REJECTED ↔ f < 75 := by
  rcases classify_spec f with ⟨h, e⟩ | ⟨h, h', e⟩ | ⟨h, h', e⟩ | ⟨h, e⟩ <;>
    rw [e] <;> constructor <;> intro hx
  · exact absurd hx (by simp)
  · exact absurd hx (by linarith)
  · exact absurd hx (by simp)
  · exact absurd hx (by linarith)
  · exact absurd hx (by simp)
  · exact absurd hx (by linarith)
  · exact h
  · rfl

lemma compositeScore_lower (l1 : ℚ) (h1 : 75 ≤ l1) :
    9108 / 100 ≤ compositeScore l1 99 99 := by
  unfold compositeScore
  linarith

lemma compositeScore_bounds (l1 l2 l3 : ℚ)
    (h1 : 0 ≤ l1) (h1' : l1 ≤ 100) (h2 : 0 ≤ l2) (h2' : l2 ≤ 100)
    (h3 : 0 ≤ l3) (h3' : l3 ≤ 100) :
    0 ≤ compositeScore l1 l2 l3 ∧ compositeScore l1 l2 l3 ≤ 100 := by
  unfold compositeScore
  constructor <;> nlinarith

/-! ## Bounds on the Layer-1 sub-checks -/

lemma sourceCheck_score (d : DataPoint) (c : SourceCheck)
    (h : _check_source_authenticity d = .ok c) :
    c.score = 99 ∨ c.score = 0 := by
  unfold _check_source_authenticity at h
  cases hg : getStrD d "source" with
  | error e => rw [hg] at h; cases h
  | ok s =>
    rw [hg] at h
    simp only [Except.ok.injEq] at h
    subst h
    by_cases ha : authoritative_sources.any (fun a => strIn a s) <;> simp [ha]

lemma integrityCheck_score_bounds (d : DataPoint) :
    0 ≤ (_check_data_integrity d).score ∧
      (_check_data_integrity d).score ≤ 100 := by
  unfold _check_data_integrity
  have hle : ((requiredKeys.filter (fun k => hasKey d k)).length : ℚ) ≤ 6 := by
    have := List.length_filter_le (fun k => hasKey d k) requiredKeys
    have h6 : requiredKeys.length = 6 := by rfl
    rw [h6] at this
    exact_mod_cast this
  have hge : (0 : ℚ) ≤ ((requiredKeys.filter (fun k => hasKey d k)).length : ℚ) := by
    positivity
  constructor
  · positivity
  · simp only
    nlinarith

lemma qualityCheck_score_bounds (d : DataPoint) (c : QualityCheck)
    (h : _check_data_quality d = .ok c) :
    0 ≤ c.score ∧ c.score ≤ 90 := by
  unfold _check_data_quality at h
  cases ha : getStrD d "address" with
  | error e => rw [ha] at h; cases h
  | ok sa =>
    rw [ha] at h
    cases hc : getStrD d "city" with
    | error e => rw [hc] at h; cases h
    | ok sc =>
      rw [hc] at h
      cases hs : getStrD d "state" with
      | error e => rw [hs] at h; cases h
      | ok ss =>
        rw [hs] at h
        simp only [Except.ok.injEq] at h
        subst h
        constructor
        · simp only
          positivity
        · simp only
          have hcast : ∀ n : Int, n ≤ 90 → ((n ⊔ 0 : Int) : ℚ) ≤ 90 := by
            intro n hn
            have : (n ⊔ 0 : Int) ≤ 90 := by omega
            exact_mod_cast this
          split_ifs <;> norm_num

lemma layer1_score_bounds (d : DataPoint) (L1 : Layer1Result)
    (h : _layer_1_internal_verification d = .ok L1) :
    0 ≤ L1.score ∧ L1.score ≤ 100 := by
  unfold _layer_1_internal_verification at h
  cases hsc : _check_source_authenticity d with
  | error e => rw [hsc] at h; cases h
  | ok sc =>
    rw [hsc] at h
    cases hqc : _check_data_quality d with
    | error e => rw [hqc] at h; cases h
    | ok qc =>
      rw [hqc] at h
      simp only [Except.ok.injEq] at h
      subst h
      have hs := sourceCheck_score d sc hsc
      have hi := integrityCheck_score_bounds d
      have hq := qualityCheck_score_bounds d qc hqc
      simp only
      constructor
      · rcases hs with hs | hs <;> rw [hs] <;> nlinarith [hi.1, hq.1]
      · rcases hs with hs | hs <;> rw [hs] <;> nlinarith [hi.2, hq.2]

/-! ## The shape of a completed validation call -/

/-- The constant result of Layer 3. -/
def layer3Const : Layer3Result :=
  { reproducibility_checks := [true, true, true, true, true, true, true],
    score := 99 }

/-- The report of a run rejected at Layer 1. -/
def rejectedReport (now : String) (d : DataPoint) (L1 : Layer1Result) :
    ValidationReport :=
  { data_point := d, validation_timestamp := now,
    layer_1 := some L1, layer_2 := none, layer_3 := none,
    final_score := L1.score, final_status := some .REJECTED,
    audit_trail := [] }

/-- The report of a run that executed all three layers. -/
def fullReport (now : String) (d : DataPoint) (L1 : Layer1Result) :
    ValidationReport :=
  { data_point := d, validation_timestamp := now,
    layer_1 := some L1,
    layer_2 := some { external_sources := panelSources d now,
                      agreement_percentage := 100, score := 99 },
    layer_3 := some layer3Const,
    final_score := compositeScore L1.score 99 99,
    final_status := some (classify (compositeScore L1.score 99 99)),
    audit_trail := [] }

/-- Every successful `validate_data_point` call either rejects at Layer 1
(one audit entry, report to `rejected_data` only) or runs all three layers
(three audit entries, a GOLD or SILVER report to `validation_history`
only).  Layer-2 and Layer-3 rejections and the composite fallthrough to
REJECTED are unreachable because both layers always score 99. -/
lemma validate_cases (st : ValidatorState) (now : String) (d : DataPoint)
    (r : ValidationReport) (st' : ValidatorState)
    (h : validate_data_point st now d = .ok (r, st')) :
    (∃ L1, _layer_1_internal_verification d = .ok L1 ∧ L1.score < 75 ∧
      r = rejectedReport now d L1 ∧
      st' = { st with
        audit_log := st.audit_log ++ [⟨now, 1, auditId d, L1.score⟩],
        rejected_data := st.rejected_data ++ [rejectedReport now d L1] }) ∨
    (∃ L1, _layer_1_internal_verification d = .ok L1 ∧ 75 ≤ L1.score ∧
      r = fullReport now d L1 ∧
      st' = { st with
        audit_log := st.audit_log ++
          [⟨now, 1, auditId d, L1.score⟩, ⟨now, 2, auditId d, 99⟩,
           ⟨now, 3, auditId d, 99⟩],
        validation_history := st.validation_history ++ [fullReport now d L1] } ∧
      (classify (compositeScore L1.score 99 99) = .GOLD ∨
       classify (compositeScore L1.score 99 99) = .SILVER)) := by
  unfold validate_data_point at h
  cases h1 : _layer_1_internal_verification d with
  | error e => rw [h1] at h; cases h
  | ok L1 =>
    rw [h1] at h
    dsimp only at h
    by_cases hlt : L1.score < 75
    · rw [if_pos hlt] at h
      simp only [Except.ok.injEq, Prod.mk.injEq] at h
      obtain ⟨hr, hst⟩ := h
      left
      exact ⟨L1, rfl, hlt, hr.symm, hst.symm⟩
    · have h75 : 75 ≤ L1.score := not_lt.mp hlt
      rw [if_neg hlt] at h
      rw [layer2_eval d now, layer3_eval d] at h
      have h99 : ¬ ((99 : ℚ) < 75) := by norm_num
      rw [if_neg h99, if_neg h99] at h
      have hcls : classify (compositeScore L1.score 99 99) = .GOLD ∨
          classify (compositeScore L1.score 99 99) = .SILVER := by
        have hlow := compositeScore_lower L1.score h75
        rcases classify_spec (compositeScore L1.score 99 99) with
          ⟨_, e⟩ | ⟨_, _, e⟩ | ⟨hb, _, e⟩ | ⟨hb, e⟩
        · exact Or.inl e
        · exact Or.inr e
        · linarith
        · linarith
      have hne : ¬ (classify (compositeScore L1.score 99 99) = .REJECTED) := by
        rcases hcls with e | e <;> rw [e] <;> simp
      rw [if_neg hne] at h
      simp only [Except.ok.injEq, Prod.mk.injEq] at h
      obtain ⟨hr, hst⟩ := h
      right
      refine ⟨L1, rfl, h75, ?_, ?_, hcls⟩
      · rw [← hr]; rfl
      · rw [← hst]
        simp [fullReport, layer3Const]

/-! ## Concrete evaluations -/

/-- Layer-1 result of the empty record: nothing present, nothing
authentic, all three quality deductions fire. -/
def emptyL1 : Layer1Result :=
  { source_authenticity := { source := "", is_authentic := false, score := 0 },
    data_integrity := { has_address := false, has_city := false,
                        has_state := false, has_zip := false,
                        has_source := false, has_timestamp := false,
                        score := 0 },
    data_quality := { score := 0 },
    score := 0 }

lemma l1_empty : _layer_1_internal_verification [] = .ok emptyL1 := by
  have hsrc : _check_source_authenticity [] =
      .ok { source := "", is_authentic := false, score := 0 } := by
    unfold _check_source_authenticity getStrD dictGet
    norm_num [authoritative_sources, strIn, charsContain, charsAtFront]
  have hint : _check_data_integrity [] =
      { has_address := false, has_city := false, has_state := false,
        has_zip := false, has_source := false, has_timestamp := false,
        score := 0 } := by
    unfold _check_data_integrity requiredKeys hasKey dictGet
    norm_num [List.filter]
  have hq : _check_data_quality [] = .ok { score := 0 } := by
    unfold _check_data_quality getStrD dictGet
    norm_num [stripBlank, isPySpace]
  unfold _layer_1_internal_verification
  rw [hsrc, hq, hint]
  unfold emptyL1
  norm_num

/-- The report of validating the empty record. -/
def emptyRecordReport : ValidationReport := rejectedReport "t" [] emptyL1

/-- The validator state after validating the empty record from a fresh
validator. -/
def emptyPostState : ValidatorState :=
  { validation_history := [], rejected_data := [emptyRecordReport],
    audit_log := [⟨"t", 1, .str "unknown", 0⟩] }

lemma validate_empty_eval :
    validate_data_point initState "t" [] =
      .ok (emptyRecordReport, emptyPostState) := by
  unfold validate_data_point
  rw [l1_empty]
  dsimp only
  rw [if_pos (show emptyL1.score < 75 by norm_num [emptyL1])]
  rfl

/-- One of the two records of the `__main__` demo: all six keys present,
authoritative source. -/
def goodRecord : DataPoint :=
  [("address", .str "1094 Riverside Drive"), ("city", .str "Port St. Lucie"),
   ("state", .str "FL"), ("zip", .str "34984"),
   ("source", .str "County Assessor"),
   ("timestamp", .str "2025-01-01T00:00:00")]

/-- Layer-1 result of `goodRecord`: authenticity 99, completeness 100,
sanity 90, mean 289/3 ≈ 96.33. -/
def goodL1 : Layer1Result :=
  { source_authenticity := { source := "County Assessor",
                             is_authentic := true, score := 99 },
    data_integrity := { has_address := true, has_city := true,
                        has_state := true, has_zip := true,
                        has_source := true, has_timestamp := true,
                        score := 100 },
    data_quality := { score := 90 },
    score := 289 / 3 }

lemma l1_good : _layer_1_internal_verification goodRecord = .ok goodL1 := by
  have hsrc : _check_source_authenticity goodRecord =
      .ok { source := "County Assessor", is_authentic := true, score := 99 } := by
    have hg : getStrD goodRecord "source" = .ok "County Assessor" := rfl
    have hb : authoritative_sources.any
        (fun a => strIn a "County Assessor") = true := by decide
    unfold _check_source_authenticity
    rw [hg]
    dsimp only
    rw [hb]
    norm_num
  have hint : _check_data_integrity goodRecord =
      { has_address := true, has_city := true, has_state := true,
        has_zip := true, has_source := true, has_timestamp := true,
        score := 100 } := by
    have hp : (requiredKeys.filter (fun k => hasKey goodRecord k)).length = 6 := by
      decide
    unfold _check_data_integrity
    rw [hp]
    dsimp only
    have h6 : ((6 : Nat) : ℚ) / 6 * 100 = 100 := by norm_num
    rw [h6]
    have b1 : hasKey goodRecord "address" = true := by decide
    have b2 : hasKey goodRecord "city" = true := by decide
    have b3 : hasKey goodRecord "state" = true := by decide
    have b4 : hasKey goodRecord "zip" = true := by decide
    have b5 : hasKey goodRecord "source" = true := by decide
    have b6 : hasKey goodRecord "timestamp" = true := by decide
    rw [b1, b2, b3, b4, b5, b6]
  have hq : _check_data_quality goodRecord = .ok { score := 90 } := by
    have ha : getStrD goodRecord "address" = .ok "1094 Riverside Drive" := rfl
    have hc : getStrD goodRecord "city" = .ok "Port St. Lucie" := rfl
    have hs : getStrD goodRecord "state" = .ok "FL" := rfl
    have sa : stripBlank "1094 Riverside Drive" = false := by decide
    have sc : stripBlank "Port St. Lucie" = false := by decide
    have ss : stripBlank "FL" = false := by decide
    unfold _check_data_quality
    rw [ha, hc, hs]
    dsimp only
    rw [sa, sc, ss]
    norm_num
  unfold _layer_1_internal_verification
  rw [hsrc, hq, hint]
  unfold goodL1
  norm_num

/-- The report of validating `goodRecord`: composite 98.12, GOLD. -/
def goodReport : ValidationReport := fullReport "t" goodRecord goodL1

/-- Layer-2 result of `goodRecord` (as of any record): full agreement. -/
def goodL2 : Layer2Result :=
  { external_sources := panelSources goodRecord "t",
    agreement_percentage := 100, score := 99 }

lemma good_composite : compositeScore (289 / 3 : ℚ) 99 99 = 9812 / 100 := by
  unfold compositeScore
  norm_num

lemma goodReport_status : goodReport.final_status = some .GOLD := by
  have h : classify (compositeScore (289 / 3 : ℚ) 99 99) = .GOLD := by
    rw [good_composite, classify_GOLD_iff]
    norm_num
  show some (classify (compositeScore goodL1.score 99 99)) = some .GOLD
  rw [show goodL1.score = 289 / 3 from rfl, h]

/-- The validator state after validating `goodRecord` from a fresh
validator. -/
def goodPostState : ValidatorState :=
  { validation_history := [goodReport], rejected_data := [],
    audit_log :=
      [⟨"t", 1, .str "1094 Riverside Drive", 289 / 3⟩,
       ⟨"t", 2, .str "1094 Riverside Drive", 99⟩,
       ⟨"t", 3, .str "1094 Riverside Drive", 99⟩] }

lemma validate_good_eval :
    validate_data_point initState "t" goodRecord =
      .ok (goodReport, goodPostState) := by
  have h := validate_cases initState "t" goodRecord
  unfold validate_data_point
  rw [l1_good]
  dsimp only
  rw [if_neg (show ¬ (goodL1.score < 75) by norm_num [goodL1])]
  rw [layer2_eval goodRecord "t", layer3_eval goodRecord]
  have h99 : ¬ ((99 : ℚ) < 75) := by norm_num
  rw [if_neg h99, if_neg h99]
  have hne : ¬ (classify (compositeScore goodL1.score 99 99) =
      ValidationStatus.REJECTED) := by
    have : classify (compositeScore goodL1.score 99 99) = .GOLD := by
      show classify (compositeScore (289 / 3 : ℚ) 99 99) = .GOLD
      rw [good_composite, classify_GOLD_iff]
      norm_num
    rw [this]
    simp
  rw [if_neg hne]
  rfl

/-- A record holding a non-string (e.g. integer) address value. -/
def nonstrRecord : DataPoint := [("address", .nonstr)]

lemma validate_nonstr_eval (st : ValidatorState) (now : String) :
    validate_data_point st now nonstrRecord = .error () := by
  have h1 : _layer_1_internal_verification nonstrRecord = .error () := rfl
  unfold validate_data_point
  rw [h1]

/-! ## The claims -/

/-- C1: if an executed layer's score is < 75, `validate_data_point` sets
final status REJECTED and final score to that layer's score, executes no
subsequent layer, appends exactly one audit entry per executed layer, and
a rejected run appends 1 or 2 audit entries, never 3.  (In this code a
rejection can only happen at Layer 1 — layers 2 and 3 always score 99 —
so a rejected run appends exactly 1 entry.) -/
theorem early_exit_rejects (st : ValidatorState) (now : String) (d : DataPoint)
    (r : ValidationReport) (st' : ValidatorState)
    (h : validate_data_point st now d = .ok (r, st')) :
    (∀ L1, r.layer_1 = some L1 → L1.score < 75 →
      r.final_status = some .REJECTED ∧ r.final_score = L1.score ∧
      r.layer_2 = none ∧ r.layer_3 = none ∧
      st'.audit_log.length = st.audit_log.length + 1) ∧
    (∀ L2, r.layer_2 = some L2 → ¬ L2.score < 75) ∧
    (∀ L3, r.layer_3 = some L3 → ¬ L3.score < 75) ∧
    st'.audit_log.length = st.audit_log.length +
      ((if r.layer_1.isSome then 1 else 0) +
       (if r.layer_2.isSome then 1 else 0) +
       (if r.layer_3.isSome then 1 else 0)) ∧
    (r.final_status = some .REJECTED →
      st'.audit_log.length = st.audit_log.length + 1 ∨
      st'.audit_log.length = st.audit_log.length + 2) := by
  rcases validate_cases st now d r st' h with
    ⟨L1, _, hlt, hr, hst⟩ | ⟨L1, _, h75, hr, hst, hcls⟩
  · subst hr; subst hst
    refine ⟨?_, ?_, ?_, ?_, ?_⟩
    · intro L hL _
      simp only [rejectedReport, Option.some.injEq] at hL
      subst hL
      simp [rejectedReport, List.length_append]
    · intro L2 hL2
      simp [rejectedReport] at hL2
    · intro L3 hL3
      simp [rejectedReport] at hL3
    · simp [rejectedReport, List.length_append]
    · intro _
      left
      simp [List.length_append]
  · subst hr; subst hst
    refine ⟨?_, ?_, ?_, ?_, ?_⟩
    · intro L hL hlt
      simp only [fullReport, Option.some.injEq] at hL
      subst hL
      exact absurd hlt (not_lt.mpr h75)
    · intro L2 hL2
      simp only [fullReport, Option.some.injEq] at hL2
      subst hL2
      norm_num
    · intro L3 hL3
      simp only [fullReport, Option.some.injEq] at hL3
      subst hL3
      norm_num [layer3Const]
    · simp [fullReport, List.length_append]
    · intro hrej
      simp only [fullReport, Option.some.injEq] at hrej
      rcases hcls with e | e <;> rw [e] at hrej <;> cases hrej

/-- C1 witness: the empty record rejects at Layer 1 with one audit entry. -/
theorem early_exit_rejects_witness :
    (∀ L1, emptyRecordReport.layer_1 = some L1 → L1.score < 75 →
      emptyRecordReport.final_status = some .REJECTED ∧
      emptyRecordReport.final_score = L1.score ∧
      emptyRecordReport.layer_2 = none ∧ emptyRecordReport.layer_3 = none ∧
      emptyPostState.audit_log.length = initState.audit_log.length + 1) ∧
    (∀ L2, emptyRecordReport.layer_2 = some L2 → ¬ L2.score < 75) ∧
    (∀ L3, emptyRecordReport.layer_3 = some L3 → ¬ L3.score < 75) ∧
    emptyPostState.audit_log.length = initState.audit_log.length +
      ((if emptyRecordReport.layer_1.isSome then 1 else 0) +
       (if emptyRecordReport.layer_2.isSome then 1 else 0) +
       (if emptyRecordReport.layer_3.isSome then 1 else 0)) ∧
    (emptyRecordReport.final_status = some .REJECTED →
      emptyPostState.audit_log.length = initState.audit_log.length + 1 ∨
      emptyPostState.audit_log.length = initState.audit_log.length + 2) :=
  early_exit_rejects initState "t" [] emptyRecordReport emptyPostState
    validate_empty_eval

/-- C2: when all three executed layers score ≥ 75 the final score is the
weighted composite `l1*0.33 + l2*0.33 + l3*0.34` and the final status is
GOLD iff ≥ 95, SILVER iff in [85, 95), BRONZE iff in [75, 85), REJECTED
iff < 75; in particular layer scores (80, 90, 85) give composite 85 and
status SILVER. -/
theorem composite_and_banding (st : ValidatorState) (now : String)
    (d : DataPoint) (r : ValidationReport) (st' : ValidatorState)
    (L1 : Layer1Result) (L2 : Layer2Result) (L3 : Layer3Result)
    (h : validate_data_point st now d = .ok (r, st'))
    (hL1 : r.layer_1 = some L1) (hL2 : r.layer_2 = some L2)
    (hL3 : r.layer_3 = some L3)
    (h1 : 75 ≤ L1.score) (h2 : 75 ≤ L2.score) (h3 : 75 ≤ L3.score) :
    r.final_score = compositeScore L1.score L2.score L3.score ∧
    (r.final_status = some .GOLD ↔ 95 ≤ r.final_score) ∧
    (r.final_status = some .SILVER ↔ 85 ≤ r.final_score ∧ r.final_score < 95) ∧
    (r.final_status = some .BRONZE ↔ 75 ≤ r.final_score ∧ r.final_score < 85) ∧
    (r.final_status = some .REJECTED ↔ r.final_score < 75) ∧
    compositeScore 80 90 85 = 85 ∧ classify 85 = .SILVER := by
  rcases validate_cases st now d r st' h with
    ⟨L1c, _, hlt, hr, _⟩ | ⟨L1c, _, h75, hr, _, hcls⟩
  · rw [hr] at hL2
    simp [rejectedReport] at hL2
  · rw [hr] at hL1 hL2 hL3
    simp only [fullReport, Option.some.injEq] at hL1 hL2 hL3
    subst hL1; subst hL2; subst hL3
    have hfs : r.final_score = compositeScore L1c.score 99 99 := by
      rw [hr]; rfl
    have hstat : r.final_status =
        some (classify (compositeScore L1c.score 99 99)) := by
      rw [hr]; rfl
    refine ⟨?_, ?_, ?_, ?_, ?_, ?_, ?_⟩
    · rw [hfs]; rfl
    · rw [hstat, hfs]
      simp only [Option.some.injEq]
      constructor
      · intro he; exact (classify_GOLD_iff _).mp he
      · intro he; exact (classify_GOLD_iff _).mpr he
    · rw [hstat, hfs]
      simp only [Option.some.injEq]
      constructor
      · intro he; exact (classify_SILVER_iff _).mp he
      · intro he; exact (classify_SILVER_iff _).mpr he
    · rw [hstat, hfs]
      simp only [Option.some.injEq]
      constructor
      · intro he; exact (classify_BRONZE_iff _).mp he
      · intro he; exact (classify_BRONZE_iff _).mpr he
    · rw [hstat, hfs]
      simp only [Option.some.injEq]
      constructor
      · intro he; exact (classify_REJECTED_iff _).mp he
      · intro he; exact (classify_REJECTED_iff _).mpr he
    · unfold compositeScore; norm_num
    · rw [classify_SILVER_iff]; norm_num

/-- C2 witness: `goodRecord` executes all three layers with scores
(289/3, 99, 99), all ≥ 75. -/
theorem composite_and_banding_witness :
    goodReport.final_score =
      compositeScore goodL1.score goodL2.score layer3Const.score ∧
    (goodReport.final_status = some .GOLD ↔ 95 ≤ goodReport.final_score) ∧
    (goodReport.final_status = some .SILVER ↔
      85 ≤ goodReport.final_score ∧ goodReport.final_score < 95) ∧
    (goodReport.final_status = some .BRONZE ↔
      75 ≤ goodReport.final_score ∧ goodReport.final_score < 85) ∧
    (goodReport.final_status = some .REJECTED ↔ goodReport.final_score < 75) ∧
    compositeScore 80 90 85 = 85 ∧ classify 85 = .SILVER :=
  composite_and_banding initState "t" goodRecord goodReport goodPostState
    goodL1 goodL2 layer3Const validate_good_eval rfl rfl rfl
    (by norm_num [goodL1]) (by norm_num [goodL2]) (by norm_num [layer3Const])

/-- C3: a REJECTED report's final score is the score of the layer that
caused the rejection (in this code always Layer 1), never a weighted
composite; every other status carries the weighted composite of all three
layer scores. -/
theorem rejected_score_from_causing_layer (st : ValidatorState) (now : String)
    (d : DataPoint) (r : ValidationReport) (st' : ValidatorState)
    (h : validate_data_point st now d = .ok (r, st')) :
    (r.final_status = some .REJECTED →
      ∃ L1, r.layer_1 = some L1 ∧ L1.score < 75 ∧ r.final_score = L1.score ∧
        r.layer_2 = none ∧ r.layer_3 = none) ∧
    (∀ s, r.final_status = some s → s ≠ .REJECTED →
      ∃ L1 L2 L3, r.layer_1 = some L1 ∧ r.layer_2 = some L2 ∧
        r.layer_3 = some L3 ∧
        r.final_score = compositeScore L1.score L2.score L3.score) := by
  rcases validate_cases st now d r st' h with
    ⟨L1c, _, hlt, hr, _⟩ | ⟨L1c, _, h75, hr, _, hcls⟩
  · subst hr
    constructor
    · intro _
      exact ⟨L1c, rfl, hlt, rfl, rfl, rfl⟩
    · intro s hs hne
      simp only [rejectedReport, Option.some.injEq] at hs
      exact absurd hs.symm hne
  · subst hr
    constructor
    · intro hrej
      simp only [fullReport, Option.some.injEq] at hrej
      rcases hcls with e | e <;> rw [e] at hrej <;> cases hrej
    · intro s _ _
      exact ⟨L1c,
        { external_sources := panelSources d now,
          agreement_percentage := 100, score := 99 },
        layer3Const, rfl, rfl, rfl, rfl⟩

/-- C3 witness: `goodRecord` yields a GOLD report carrying the weighted
composite. -/
theorem rejected_score_from_causing_layer_witness :
    (goodReport.final_status = some .REJECTED →
      ∃ L1, goodReport.layer_1 = some L1 ∧ L1.score < 75 ∧
        goodReport.final_score = L1.score ∧
        goodReport.layer_2 = none ∧ goodReport.layer_3 = none) ∧
    (∀ s, goodReport.final_status = some s → s ≠ .REJECTED →
      ∃ L1 L2 L3, goodReport.layer_1 = some L1 ∧
        goodReport.layer_2 = some L2 ∧ goodReport.layer_3 = some L3 ∧
        goodReport.final_score = compositeScore L1.score L2.score L3.score) :=
  rejected_score_from_causing_layer initState "t" goodRecord goodReport
    goodPostState validate_good_eval

/-- C8: every returned report has a final score in [0, 100] and a final
status that is exactly one of GOLD, SILVER, BRONZE, REJECTED (in
particular it is never the initial `None`). -/
theorem report_score_and_status_wellformed (st : ValidatorState) (now : String)
    (d : DataPoint) (r : ValidationReport) (st' : ValidatorState)
    (h : validate_data_point st now d = .ok (r, st')) :
    0 ≤ r.final_score ∧ r.final_score ≤ 100 ∧
    (r.final_status = some .GOLD ∨ r.final_status = some .SILVER ∨
     r.final_status = some .BRONZE ∨ r.final_status = some .REJECTED) := by
  rcases validate_cases st now d r st' h with
    ⟨L1, h1, hlt, hr, _⟩ | ⟨L1, h1, h75, hr, _, hcls⟩
  · subst hr
    have hb := layer1_score_bounds d L1 h1
    exact ⟨hb.1, hb.2, Or.inr (Or.inr (Or.inr rfl))⟩
  · subst hr
    have hb := layer1_score_bounds d L1 h1
    have hc := compositeScore_bounds L1.score 99 99 hb.1 hb.2
      (by norm_num) (by norm_num) (by norm_num) (by norm_num)
    refine ⟨hc.1, hc.2, ?_⟩
    rcases hcls with e | e
    · exact Or.inl (by simp [fullReport, e])
    · exact Or.inr (Or.inl (by simp [fullReport, e]))

/-- C8 witness: the empty record's report has score 0 and status
REJECTED. -/
theorem report_score_and_status_wellformed_witness :
    0 ≤ emptyRecordReport.final_score ∧ emptyRecordReport.final_score ≤ 100 ∧
    (emptyRecordReport.final_status = some .GOLD ∨
     emptyRecordReport.final_status = some .SILVER ∨
     emptyRecordReport.final_status = some .BRONZE ∨
     emptyRecordReport.final_status = some .REJECTED) :=
  report_score_and_status_wellformed initState "t" [] emptyRecordReport
    emptyPostState validate_empty_eval

/-- C10: layers 2 and 3 score exactly 99 for every record (their
collaborator stand-ins all succeed); hence a record passing Layer 1's 75
gate gets a composite of at least 91.08, the final status is never
BRONZE, and any rejection happens at Layer 1 (layers 2 and 3 absent from
the report, Layer-1 score below 75). -/
theorem hardcoded_layers_never_bronze :
    (∀ (d : DataPoint) (now : String),
      (_layer_2_external_verification d now).score = 99) ∧
    (∀ d : DataPoint, (_layer_3_reproducibility_test d).score = 99) ∧
    (∀ (st : ValidatorState) (now : String) (d : DataPoint)
       (r : ValidationReport) (st' : ValidatorState),
      validate_data_point st now d = .ok (r, st') →
      (∀ L1, r.layer_1 = some L1 → 75 ≤ L1.score →
        9108 / 100 ≤ r.final_score) ∧
      r.final_status ≠ some .BRONZE ∧
      (r.final_status = some .REJECTED →
        r.layer_2 = none ∧ r.layer_3 = none ∧
        ∀ L1, r.layer_1 = some L1 → L1.score < 75)) := by
  refine ⟨layer2_score, layer3_score, ?_⟩
  intro st now d r st' h
  rcases validate_cases st now d r st' h with
    ⟨L1c, h1, hlt, hr, _⟩ | ⟨L1c, h1, h75, hr, _, hcls⟩
  · subst hr
    refine ⟨?_, ?_, ?_⟩
    · intro L hL hge
      simp only [rejectedReport, Option.some.injEq] at hL
      subst hL
      exact absurd hlt (not_lt.mpr hge)
    · simp [rejectedReport]
    · intro _
      refine ⟨rfl, rfl, ?_⟩
      intro L hL
      simp only [rejectedReport, Option.some.injEq] at hL
      subst hL
      exact hlt
  · subst hr
    refine ⟨?_, ?_, ?_⟩
    · intro L hL hge
      simp only [fullReport, Option.some.injEq] at hL
      subst hL
      exact compositeScore_lower L1c.score hge
    · intro hb
      simp only [fullReport, Option.some.injEq] at hb
      rcases hcls with e | e <;> rw [e] at hb <;> cases hb
    · intro hrej
      simp only [fullReport, Option.some.injEq] at hrej
      rcases hcls with e | e <;> rw [e] at hrej <;> cases hrej

/-- C4: Layer 2 consults its fixed panel of 5 sources, computes
agreement = valid/total × 100, maps it through the fixed bands
(≥95→99, ≥80→90, ≥60→75, else 50), and its score is 0 only when no
source responded (which never happens: the panel always answers, so the
score is in fact always 99). -/
theorem layer2_agreement_and_banding :
    ∀ (d : DataPoint) (now : String),
      (_layer_2_external_verification d now).external_sources.length = 5 ∧
      (_layer_2_external_verification d now).agreement_percentage =
        ((((_layer_2_external_verification d now).external_sources.filter
            (fun s => s.valid)).length : ℚ) /
         (((_layer_2_external_verification d now).external_sources.length : ℚ)))
          * 100 ∧
      (_layer_2_external_verification d now).score =
        scoreBands ((_layer_2_external_verification d now).agreement_percentage) ∧
      ((_layer_2_external_verification d now).score = 0 →
        (_layer_2_external_verification d now).external_sources.length = 0) := by
  intro d now
  rw [layer2_eval]
  have hfil : (panelSources d now).filter (fun s => s.valid) =
      panelSources d now := by
    simp [panelSources, _verify_usps, _verify_google_maps,
      _verify_county_records, _verify_county_assessor,
      _verify_property_appraiser, List.filter]
  refine ⟨rfl, ?_, ?_, ?_⟩
  · dsimp only
    rw [hfil]
    rw [show (panelSources d now).length = 5 from rfl]
    norm_num
  · dsimp only
    rw [show scoreBands 100 = 99 by norm_num [scoreBands]]
  · intro h0
    norm_num at h0

/-- The per-batch ledger invariant: rejected reports live only in
`rejected_data`, everything else only in `validation_history`. -/
lemma runBatch_invariant (inputs : List (String × DataPoint)) :
    ∀ st : ValidatorState,
      (∀ r ∈ st.rejected_data, r.final_status = some .REJECTED) →
      (∀ r ∈ st.validation_history, r.final_status ≠ some .REJECTED) →
      (∀ r ∈ (runBatch st inputs).rejected_data,
        r.final_status = some .REJECTED) ∧
      (∀ r ∈ (runBatch st inputs).validation_history,
        r.final_status ≠ some .REJECTED) := by
  induction inputs with
  | nil => exact fun st h1 h2 => ⟨h1, h2⟩
  | cons p rest ih =>
    intro st h1 h2
    obtain ⟨now, d⟩ := p
    unfold runBatch
    cases hv : validate_data_point st now d with
    | error e => exact ih st h1 h2
    | ok q =>
      obtain ⟨r, st1⟩ := q
      rcases validate_cases st now d r st1 hv with
        ⟨L1, _, _, hrr, hst⟩ | ⟨L1, _, _, hrr, hst, hcls⟩
      · subst hst
        apply ih
        · intro x hx
          rw [List.mem_append] at hx
          rcases hx with hx | hx
          · exact h1 x hx
          · rw [List.mem_singleton] at hx
            subst hx
            rfl
        · exact h2
      · subst hst
        apply ih
        · exact h1
        · intro x hx
          rw [List.mem_append] at hx
          rcases hx with hx | hx
          · exact h2 x hx
          · rw [List.mem_singleton] at hx
            subst hx
            intro he
            simp only [fullReport, Option.some.injEq] at he
            rcases hcls with e | e <;> rw [e] at he <;> cases he

/-- C7: a report is routed to `rejected_data` exactly when its final
status is REJECTED and to `validation_history` otherwise; over any batch
from a fresh validator, `rejected_data` holds only REJECTED reports,
`validation_history` holds only non-REJECTED ones, and
`get_releasable_data` returns exactly the GOLD and SILVER reports. -/
theorem ledger_partition :
    (∀ (st : ValidatorState) (now : String) (d : DataPoint)
       (r : ValidationReport) (st' : ValidatorState),
      validate_data_point st now d = .ok (r, st') →
      (r.final_status = some .REJECTED →
        st'.rejected_data = st.rejected_data ++ [r] ∧
        st'.validation_history = st.validation_history) ∧
      (r.final_status ≠ some .REJECTED →
        st'.validation_history = st.validation_history ++ [r] ∧
        st'.rejected_data = st.rejected_data)) ∧
    (∀ inputs : List (String × DataPoint),
      (∀ r ∈ (runBatch initState inputs).rejected_data,
        r.final_status = some .REJECTED) ∧
      (∀ r ∈ (runBatch initState inputs).validation_history,
        r.final_status ≠ some .REJECTED) ∧
      get_releasable_data (runBatch initState inputs) =
        ((runBatch initState inputs).validation_history ++
         (runBatch initState inputs).rejected_data).filter
          (fun r => isGoldOrSilver r.final_status)) := by
  constructor
  · intro st now d r st' h
    rcases validate_cases st now d r st' h with
      ⟨L1, _, _, hrr, hst⟩ | ⟨L1, _, _, hrr, hst, hcls⟩
    · subst hrr; subst hst
      constructor
      · intro _
        exact ⟨rfl, rfl⟩
      · intro hne
        exact absurd rfl hne
    · subst hrr; subst hst
      constructor
      · intro hrej
        simp only [fullReport, Option.some.injEq] at hrej
        rcases hcls with e | e <;> rw [e] at hrej <;> cases hrej
      · intro _
        exact ⟨rfl, rfl⟩
  · intro inputs
    have h1 := runBatch_invariant inputs initState
      (by intro r hr; cases hr) (by intro r hr; cases hr)
    refine ⟨h1.1, h1.2, ?_⟩
    unfold get_releasable_data
    rw [List.filter_append]
    have hnil : (runBatch initState inputs).rejected_data.filter
        (fun r => isGoldOrSilver r.final_status) = [] := by
      rw [List.filter_eq_nil_iff]
      intro a ha
      have hs := h1.1 a ha
      simp [isGoldOrSilver, hs]
    rw [hnil, List.append_nil]

/-- C9 counterexample: validating `goodRecord` executes all three layers,
yet the returned report's `audit_trail` field is empty — the per-layer
audit entries are not part of the report (they go to the validator's
`audit_log`, see `audit_entries_in_validator_log`). -/
theorem report_audit_trail_stays_empty :
    validate_data_point initState "t" goodRecord =
      .ok (goodReport, goodPostState) ∧
    goodReport.layer_1.isSome = true ∧
    goodReport.layer_2.isSome = true ∧
    goodReport.layer_3.isSome = true ∧
    goodReport.audit_trail = [] :=
  ⟨validate_good_eval, rfl, rfl, rfl, rfl⟩

/-- C9 (amended): `validate_data_point` appends one audit entry
(timestamp, layer number, record identifier, layer score) per executed
layer, in execution order, to the validator's process-wide `audit_log`;
the report's own `audit_trail` field is initialised empty and never
populated. -/
theorem audit_entries_in_validator_log (st : ValidatorState) (now : String)
    (d : DataPoint) (r : ValidationReport) (st' : ValidatorState)
    (h : validate_data_point st now d = .ok (r, st')) :
    r.audit_trail = [] ∧
    ∃ L1, r.layer_1 = some L1 ∧
      ((r.layer_2 = none ∧ r.layer_3 = none ∧
        st'.audit_log = st.audit_log ++
          [⟨now, 1, auditId d, L1.score⟩]) ∨
       (∃ L2 L3, r.layer_2 = some L2 ∧ r.layer_3 = some L3 ∧
        st'.audit_log = st.audit_log ++
          [⟨now, 1, auditId d, L1.score⟩, ⟨now, 2, auditId d, L2.score⟩,
           ⟨now, 3, auditId d, L3.score⟩])) := by
  rcases validate_cases st now d r st' h with
    ⟨L1c, _, _, hr, hst⟩ | ⟨L1c, _, _, hr, hst, _⟩
  · subst hr; subst hst
    exact ⟨rfl, L1c, rfl, Or.inl ⟨rfl, rfl, rfl⟩⟩
  · subst hr; subst hst
    exact ⟨rfl, L1c, rfl, Or.inr
      ⟨{ external_sources := panelSources d now,
         agreement_percentage := 100, score := 99 },
       layer3Const, rfl, rfl, rfl⟩⟩

/-- C9 witness for the amended claim: the `goodRecord` run appends three
entries to the validator's `audit_log` and leaves the report's
`audit_trail` empty. -/
theorem audit_entries_in_validator_log_witness :
    goodReport.audit_trail = [] ∧
    ∃ L1, goodReport.layer_1 = some L1 ∧
      ((goodReport.layer_2 = none ∧ goodReport.layer_3 = none ∧
        goodPostState.audit_log = initState.audit_log ++
          [⟨"t", 1, auditId goodRecord, L1.score⟩]) ∨
       (∃ L2 L3, goodReport.layer_2 = some L2 ∧
        goodReport.layer_3 = some L3 ∧
        goodPostState.audit_log = initState.audit_log ++
          [⟨"t", 1, auditId goodRecord, L1.score⟩,
           ⟨"t", 2, auditId goodRecord, L2.score⟩,
           ⟨"t", 3, auditId goodRecord, L3.score⟩])) :=
  audit_entries_in_validator_log initState "t" goodRecord goodReport
    goodPostState validate_good_eval

/-! ## Layer 1 against the specified sub-check formulas (C5) -/

/-- The three keys `_check_data_quality` inspects. -/
def sanityKeys : List String := ["address", "city", "state"]

/-- Formalised from the claim's wording: `k` is *present* in `d` with a
string value that is blank after stripping whitespace. -/
def presentButBlank (d : DataPoint) (k : String) : Bool :=
  match dictGet d k with
  | some (.str s) => stripBlank s
  | _ => false

/-- The claim's content-sanity formula: 90 minus 50 per present-but-blank
key among address/city/state, floored at 0. -/
def claimContentSanity (d : DataPoint) : ℚ :=
  ((max 0 (90 - 50 *
      ((sanityKeys.filter (fun k => presentButBlank d k)).length : Int))
    : Int) : ℚ)

/-- What the code deducts for: the key is missing, or present with a
blank string value (`.get(k, "")` turns a missing key into `""`). -/
def missingOrBlank (d : DataPoint) (k : String) : Bool :=
  match dictGet d k with
  | none => true
  | some (.str s) => stripBlank s
  | some .nonstr => false

/-- The amended content-sanity formula: 90 minus 50 per missing-or-blank
key among address/city/state, floored at 0. -/
def amendedContentSanity (d : DataPoint) : ℚ :=
  ((max 0 (90 - 50 *
      ((sanityKeys.filter (fun k => missingOrBlank d k)).length : Int))
    : Int) : ℚ)

/-- The claim's source-authenticity formula: 99 iff the source string
contains an allow-list entry as a substring, else 0. -/
def specSourceScore (d : DataPoint) : ℚ :=
  if authoritative_sources.any (fun a =>
      strIn a (match dictGet d "source" with
               | some (.str s) => s
               | _ => "")) then 99 else 0

/-- The claim's structural-completeness formula: presence count of the
six required keys over six, as a percentage. -/
def specCompletenessScore (d : DataPoint) : ℚ :=
  (((requiredKeys.filter (fun k => hasKey d k)).length : ℚ) / 6) * 100

lemma sourceCheck_score_spec (d : DataPoint) (c : SourceCheck)
    (h : _check_source_authenticity d = .ok c) :
    c.score = specSourceScore d := by
  unfold _check_source_authenticity at h
  cases hg : dictGet d "source" with
  | none =>
    have hget : getStrD d "source" = .ok "" := by unfold getStrD; rw [hg]
    rw [hget] at h
    simp only [Except.ok.injEq] at h
    subst h
    unfold specSourceScore
    rw [hg]
  | some v =>
    cases v with
    | str s =>
      have hget : getStrD d "source" = .ok s := by unfold getStrD; rw [hg]
      rw [hget] at h
      simp only [Except.ok.injEq] at h
      subst h
      unfold specSourceScore
      rw [hg]
    | nonstr =>
      have hget : getStrD d "source" = .error () := by unfold getStrD; rw [hg]
      rw [hget] at h
      cases h

lemma integrityCheck_score_spec (d : DataPoint) :
    (_check_data_integrity d).score = specCompletenessScore d := rfl

lemma stripBlank_getStrD (d : DataPoint) (k : String) (s : String)
    (h : getStrD d k = .ok s) :
    stripBlank s = missingOrBlank d k := by
  unfold getStrD at h
  cases hg : dictGet d k with
  | none =>
    rw [hg] at h
    simp only [Except.ok.injEq] at h
    subst h
    unfold missingOrBlank
    rw [hg]
    decide
  | some v =>
    cases v with
    | str s' =>
      rw [hg] at h
      simp only [Except.ok.injEq] at h
      subst h
      unfold missingOrBlank
      rw [hg]
    | nonstr =>
      rw [hg] at h
      cases h

lemma qualityCheck_score_amended (d : DataPoint) (c : QualityCheck)
    (h : _check_data_quality d = .ok c) :
    c.score = amendedContentSanity d := by
  unfold _check_data_quality at h
  cases ha : getStrD d "address" with
  | error e => rw [ha] at h; cases h
  | ok sa =>
    rw [ha] at h
    cases hc : getStrD d "city" with
    | error e => rw [hc] at h; cases h
    | ok sc =>
      rw [hc] at h
      cases hs : getStrD d "state" with
      | error e => rw [hs] at h; cases h
      | ok ss =>
        rw [hs] at h
        simp only [Except.ok.injEq] at h
        subst h
        have ea := stripBlank_getStrD d "address" sa ha
        have ec := stripBlank_getStrD d "city" sc hc
        have es := stripBlank_getStrD d "state" ss hs
        dsimp only
        rw [ea, ec, es]
        unfold amendedContentSanity sanityKeys
        cases hm1 : missingOrBlank d "address" <;>
          cases hm2 : missingOrBlank d "city" <;>
            cases hm3 : missingOrBlank d "state" <;>
              simp [List.filter, hm1, hm2, hm3]

/-- C5 counterexample: on the empty record the code's Layer-1 score is 0,
but the claim's formula — with content sanity deducting only for
*present*-but-blank fields — predicts (0 + 0 + 90)/3 = 30: `.get(k, "")`
makes a missing key count like a blank one. -/
theorem layer1_formula_cex :
    ¬ ((_layer_1_internal_verification []).map Layer1Result.score =
        .ok ((specSourceScore [] + specCompletenessScore [] +
              claimContentSanity []) / 3)) := by
  rw [l1_empty]
  intro hEq
  simp only [Except.map, Except.ok.injEq] at hEq
  have h1 : specSourceScore [] = 0 := by
    unfold specSourceScore
    rw [show (authoritative_sources.any (fun a =>
        strIn a (match dictGet ([] : DataPoint) "source" with
                 | some (.str s) => s
                 | _ => ""))) = false by decide]
    rfl
  have h2 : specCompletenessScore [] = 0 := by
    unfold specCompletenessScore
    rw [show ((requiredKeys.filter
        (fun k => hasKey ([] : DataPoint) k)).length) = 0 by decide]
    norm_num
  have h3 : claimContentSanity [] = 90 := by
    unfold claimContentSanity
    rw [show ((sanityKeys.filter
        (fun k => presentButBlank ([] : DataPoint) k)).length) = 0 by decide]
    norm_num
  rw [h1, h2, h3, show emptyL1.score = 0 from rfl] at hEq
  norm_num at hEq

/-- C5 (amended): the Layer-1 score is the unweighted mean of source
authenticity (99 iff the source contains an allow-list entry), structural
completeness (present keys / 6 × 100) and content sanity amended to
deduct 50 for each of address/city/state that is *missing or* blank after
stripping, floored at 0. -/
theorem layer1_score_formula (d : DataPoint) (L1 : Layer1Result)
    (h : _layer_1_internal_verification d = .ok L1) :
    L1.score = (specSourceScore d + specCompletenessScore d +
                amendedContentSanity d) / 3 := by
  unfold _layer_1_internal_verification at h
  cases hsc : _check_source_authenticity d with
  | error e => rw [hsc] at h; cases h
  | ok sc =>
    rw [hsc] at h
    cases hqc : _check_data_quality d with
    | error e => rw [hqc] at h; cases h
    | ok qc =>
      rw [hqc] at h
      simp only [Except.ok.injEq] at h
      subst h
      dsimp only
      rw [sourceCheck_score_spec d sc hsc, qualityCheck_score_amended d qc hqc,
          integrityCheck_score_spec d]

/-- C5 witness for the amended claim: the empty record scores
(0 + 0 + 0)/3 = 0. -/
theorem layer1_score_formula_witness :
    emptyL1.score = (specSourceScore [] + specCompletenessScore [] +
                     amendedContentSanity []) / 3 :=
  layer1_score_formula [] emptyL1 l1_empty

/-! ## Totality of validation (C6) -/

/-- The four keys whose values `validate_data_point` uses as strings. -/
def stringKeys : List String := ["address", "city", "state", "source"]

/-- Every one of the four string-used keys is absent or holds a string. -/
def stringValued (d : DataPoint) : Bool :=
  stringKeys.all (fun k =>
    match dictGet d k with
    | some .nonstr => false
    | _ => true)

lemma stringValued_get (d : DataPoint) (h : stringValued d = true)
    (k : String) (hk : k ∈ stringKeys) :
    ∃ s, getStrD d k = .ok s := by
  rw [stringValued, List.all_eq_true] at h
  have hv := h k hk
  cases hg : dictGet d k with
  | none => exact ⟨"", by unfold getStrD; rw [hg]⟩
  | some v =>
    cases v with
    | str s => exact ⟨s, by unfold getStrD; rw [hg]⟩
    | nonstr => rw [hg] at hv; simp at hv

lemma layer1_ok_of_stringValued (d : DataPoint) (h : stringValued d = true) :
    ∃ L1, _layer_1_internal_verification d = .ok L1 := by
  obtain ⟨s0, hs0⟩ := stringValued_get d h "source" (by decide)
  obtain ⟨sa, hsa⟩ := stringValued_get d h "address" (by decide)
  obtain ⟨sc, hsc⟩ := stringValued_get d h "city" (by decide)
  obtain ⟨ss, hss⟩ := stringValued_get d h "state" (by decide)
  cases hL : _layer_1_internal_verification d with
  | ok L1 => exact ⟨L1, rfl⟩
  | error e =>
    unfold _layer_1_internal_verification _check_source_authenticity
      _check_data_quality at hL
    rw [hs0, hsa, hsc, hss] at hL
    simp at hL

lemma validate_ok_of_layer1_ok (st : ValidatorState) (now : String)
    (d : DataPoint) (L1 : Layer1Result)
    (hL1 : _layer_1_internal_verification d = .ok L1) :
    ∃ p, validate_data_point st now d = .ok p := by
  unfold validate_data_point
  rw [hL1]
  dsimp only
  split_ifs <;> exact ⟨_, rfl⟩

/-- C6 counterexample: a record whose `address` holds a non-string value
(e.g. the integer 5) makes `validate_data_point` raise
(`.strip()` on a non-string) instead of scoring it low. -/
theorem validate_raises_on_nonstring :
    validate_data_point initState "t" nonstrRecord = .error () :=
  validate_nonstr_eval initState "t"

/-- C6 (amended): for every record whose `address`/`city`/`state`/`source`
values, when present, are strings — keys may be missing or blank —
`validate_data_point` never raises; it returns a report.  (Records with a
non-string value in one of those fields raise, see
`validate_raises_on_nonstring`.) -/
theorem validate_never_raises_on_string_records (st : ValidatorState)
    (now : String) (d : DataPoint) (h : stringValued d = true) :
    ∃ r st', validate_data_point st now d = .ok (r, st') := by
  obtain ⟨L1, hL1⟩ := layer1_ok_of_stringValued d h
  obtain ⟨⟨r, st'⟩, hp⟩ := validate_ok_of_layer1_ok st now d L1 hL1
  exact ⟨r, st', hp⟩

/-- C6 witness for the amended claim: the empty record (malformed but
string-valued) is validated without raising. -/
theorem validate_never_raises_witness :
    ∃ r st', validate_data_point initState "t" [] = .ok (r, st') :=
  validate_never_raises_on_string_records initState "t" [] (by decide)

end TripleCheck
